import Mathlib

/-!
Shallow embedding of the world-capital-quiz application (src/src/App.tsx).

JavaScript numbers are modelled as `ℚ` where fractional multipliers occur
(every multiplier product reachable in the game is exact in binary-compatible
range, so `ℚ` floors agree with `Math.floor` on doubles), as `Int` for
counters that are only ever incremented/decremented, and as `Nat` for the
combo and question counters, which never go below zero.  Randomness
(`Math.random`) is modelled by passing the random index and the two
`sort(() => Math.random() - 0.5)` shuffles as explicit parameters; theorems
quantify over all permutations.  `localStorage` is modelled as an
`Option String` cell plus an availability flag (the `try`/`catch` blocks).
-/

namespace WCQ

/-- The three difficulty tiers (`type Difficulty` in the source). -/
inductive Difficulty where
  | easy
  | medium
  | hard
deriving DecidableEq, Repr

/-- The five top-level screens (`type Screen` in the source). -/
inductive Screen where
  | main
  | difficulty
  | game
  | gameOver
  | help
deriving DecidableEq, Repr

/-- A (country, capital, optional difficulty) record from the question bank
(`interface CountryCapital`). -/
structure CountryCapital where
  country : String
  capital : String
  difficulty : Option Difficulty
deriving DecidableEq, Repr

/-- A generated question (`interface Question`). -/
structure Question where
  country : String
  capital : String
  options : List String
  difficulty : Option Difficulty
deriving DecidableEq, Repr

/-- Source `getScoreByDifficulty`: base points by the question's own
difficulty tag, defaulting to 10 (the easy value) when the tag is absent. -/
def getScoreByDifficulty : Option Difficulty → ℚ
  | some .easy => 10
  | some .medium => 20
  | some .hard => 30
  | none => 10

/-- Source `getComboMultiplier`. -/
def getComboMultiplier (combo : Nat) : ℚ :=
  if combo < 3 then 1.0
  else if combo < 5 then 1.2
  else if combo < 10 then 1.5
  else if combo < 20 then 2.0
  else 2.5

/-- Source `getModeMultiplier`: multiplier of the player-selected mode. -/
def getModeMultiplier : Difficulty → ℚ
  | .easy => 1.0
  | .medium => 1.2
  | .hard => 1.5

/-- Source `getTimeByDifficulty`: per-mode timer duration in seconds. -/
def getTimeByDifficulty : Difficulty → Int
  | .easy => 7
  | .medium => 4
  | .hard => 2

/-- The eligibility filter at the top of `generateQuestion`: which facts may
serve as the correct answer, by mode and question number. -/
def eligibleCountries (data : List CountryCapital) (difficulty : Difficulty)
    (questionNumber : Nat) : List CountryCapital :=
  match difficulty with
  | .easy =>
    if questionNumber ≤ 20 then
      data.filter (fun c => c.difficulty == some Difficulty.easy)
    else if questionNumber ≤ 40 then
      data.filter (fun c =>
        c.difficulty == some Difficulty.easy || c.difficulty == some Difficulty.medium)
    else data
  | .medium =>
    if questionNumber ≤ 30 then
      data.filter (fun c =>
        c.difficulty == some Difficulty.easy || c.difficulty == some Difficulty.medium)
    else data
  | .hard => data

/-- Source `generateQuestion`.  `data` stands for `COUNTRY_CAPITALS`,
`randomIndex` for `Math.floor(Math.random() * availableCountries.length)`, and
`shuffle1`/`shuffle2` for the two `sort(() => Math.random() - 0.5)` calls.
Returns `none` when the random index misses the eligible list (in JavaScript
this would be an undefined access). -/
def generateQuestion (data : List CountryCapital)
    (shuffle1 shuffle2 : List String → List String) (randomIndex : Nat)
    (difficulty : Difficulty) (questionNumber : Nat) : Option Question :=
  let availableCountries := eligibleCountries data difficulty questionNumber
  match availableCountries[randomIndex]? with
  | none => none
  | some correct =>
    let otherCapitals :=
      ((shuffle1 ((data.filter (fun item => item.capital != correct.capital)).map
        (fun item => item.capital)))).take 3
    let options := shuffle2 (correct.capital :: otherCapitals)
    some { country := correct.country
           capital := correct.capital
           options := options
           difficulty := some (correct.difficulty.getD .easy) }

/-- JavaScript `currentQuestion?.capital || null`: a falsy string (the empty string)
collapses to `null`. -/
def jsOrNull (s : String) : Option String :=
  if s = "" then none else some s

/-- The game-relevant React state of `App`, as one record. -/
structure GameState where
  screen : Screen
  speedMode : Bool
  score : Int
  hearts : Int
  questionNumber : Nat
  combo : Nat
  timeLeft : Int
  currentDifficulty : Difficulty
  currentQuestion : Option Question
  selectedAnswer : Option String
  isAnswered : Bool
  feedback : String
  correctAnswer : Option String
  /-- Field for `timeoutHandledRef.current`: the one-shot timeout latch. -/
  timeoutHandled : Bool
deriving DecidableEq, Repr

/-- Source `handleAnswer`: resolving a round by an answer click.
The scheduled `setTimeout` continuations (advance / game over) are modelled
separately by `nextQuestion`; this function is the synchronous state update. -/
def handleAnswer (answer : String) (s : GameState) : GameState :=
  if s.isAnswered then s
  else
    match s.currentQuestion with
    | some q =>
      if answer = q.capital then
        let newCombo := s.combo + 1
        let basePoints := getScoreByDifficulty q.difficulty
        let modeMultiplier := getModeMultiplier s.currentDifficulty
        let comboMultiplier := getComboMultiplier newCombo
        let finalPoints := ⌊basePoints * modeMultiplier * comboMultiplier⌋
        { s with isAnswered := true
                 selectedAnswer := some answer
                 combo := newCombo
                 score := s.score + finalPoints
                 feedback := "정답입니다!" }
      else
        { s with isAnswered := true
                 selectedAnswer := some answer
                 combo := 0
                 feedback := "틀렸습니다!"
                 correctAnswer := jsOrNull q.capital
                 hearts := s.hearts - 1 }
    | none =>
      -- `answer === currentQuestion?.capital` is false against `undefined`,
      -- so the wrong-answer branch runs; `currentQuestion?.capital || null` is `null`.
      { s with isAnswered := true
               selectedAnswer := some answer
               combo := 0
               feedback := "틀렸습니다!"
               correctAnswer := none
               hearts := s.hearts - 1 }

/-- The `tick` closure of the timer effect: one one-second timer callback.
The effect only installs the interval while `screen === 'game'`, a question is
present and the round is unanswered, so the closure's `currentQuestion` is
non-null; a `none` question is modelled as the tick never firing. -/
def tick (s : GameState) : GameState :=
  if s.isAnswered || s.timeoutHandled then s
  else if s.timeLeft ≤ 0 then { s with timeLeft := 0 }
  else
    let newTime := s.timeLeft - 1
    if newTime ≤ 0 ∧ s.timeoutHandled = false then
      match s.currentQuestion with
      | some q =>
        { s with timeoutHandled := true
                 isAnswered := true
                 feedback := "시간 초과입니다!"
                 combo := 0
                 correctAnswer := some q.capital
                 hearts := s.hearts - 1
                 timeLeft := 0 }
      | none => s
    else { s with timeLeft := newTime }

/-- Source `nextQuestion` (the delayed advance step).  Re-arming a
round re-runs the timer effect, which resets `timeoutHandledRef.current`. -/
def nextQuestion (data : List CountryCapital)
    (shuffle1 shuffle2 : List String → List String) (randomIndex : Nat)
    (s : GameState) : GameState :=
  if s.hearts ≤ 0 then { s with screen := .gameOver }
  else
    let newNumber := s.questionNumber + 1
    { s with questionNumber := newNumber
             isAnswered := false
             selectedAnswer := none
             feedback := ""
             correctAnswer := none
             currentQuestion :=
               generateQuestion data shuffle1 shuffle2 randomIndex
                 s.currentDifficulty newNumber
             timeLeft := getTimeByDifficulty s.currentDifficulty
             timeoutHandled := false }

/-- Source `startGame`: (re)start a run in the given mode. -/
def startGame (data : List CountryCapital)
    (shuffle1 shuffle2 : List String → List String) (randomIndex : Nat)
    (difficulty : Difficulty) (s : GameState) : GameState :=
  { s with currentDifficulty := difficulty
           score := 0
           hearts := 3
           questionNumber := 1
           combo := 0
           isAnswered := false
           selectedAnswer := none
           feedback := ""
           correctAnswer := none
           currentQuestion :=
             generateQuestion data shuffle1 shuffle2 randomIndex difficulty 1
           timeLeft := getTimeByDifficulty difficulty
           screen := .game
           timeoutHandled := false }

/-- JavaScript `parseInt(s, 10)`: skip leading whitespace, optional sign, then
the maximal run of decimal digits; `none` models `NaN` (no digits). -/
def parseIntJS (s : String) : Option Int :=
  let cs := s.data.dropWhile Char.isWhitespace
  let signAndRest : Int × List Char :=
    match cs with
    | '-' :: r => (-1, r)
    | '+' :: r => (1, r)
    | r => (1, r)
  let ds := signAndRest.2.takeWhile Char.isDigit
  if ds.isEmpty then none
  else some (signAndRest.1 * (ds.foldl (fun acc c => acc * 10 + (c.toNat - 48)) 0 : Nat))

/-- Source `getHighScore`.  `avail = false` models
`localStorage.getItem` throwing (caught: return 0); `stored = none` models an
absent key; the empty string is falsy, so `stored ? … : 0` yields 0.
The result is `Option Int`, `none` modelling `NaN`. -/
def getHighScore (avail : Bool) (stored : Option String) : Option Int :=
  if avail then
    match stored with
    | none => some 0
    | some s => if s = "" then some 0 else parseIntJS s
  else some 0

/-- JavaScript `>` against a possibly-`NaN` right operand: any comparison with
`NaN` is false. -/
def jsGt (a : Int) (b : Option Int) : Bool :=
  match b with
  | none => false
  | some v => decide (v < a)

/-- Source `saveHighScore`: read-compare-write against the stored
cell; with storage unavailable both the read default and the swallowed write
leave the cell unchanged. -/
def saveHighScore (avail : Bool) (score : Int) (stored : Option String) :
    Option String :=
  if avail then
    if jsGt score (getHighScore avail stored) then some (toString score)
    else stored
  else stored

/-- The game-over effect: `if (screen === 'gameOver' && score > 0) saveHighScore(score)`. -/
def gameOverSaveEffect (screen : Screen) (avail : Bool) (score : Int)
    (stored : Option String) : Option String :=
  if screen = Screen.gameOver ∧ 0 < score then saveHighScore avail score stored
  else stored

/-! ## Helper lemmas -/

lemma eligibleCountries_subset (data : List CountryCapital) (d : Difficulty) (n : Nat) :
    eligibleCountries data d n ⊆ data := by
  unfold eligibleCountries
  cases d <;> (try split_ifs) <;>
    first
      | exact (List.filter_sublist _).subset
      | exact fun x h => h

lemma options_spec (c : String) (pool : List String)
    (shuffle1 shuffle2 : List String → List String)
    (hpoolnodup : pool.Nodup) (hpoollen : 3 ≤ pool.length) (hcnot : c ∉ pool)
    (hs1 : (shuffle1 pool).Perm pool)
    (hs2 : (shuffle2 (c :: (shuffle1 pool).take 3)).Perm
      (c :: (shuffle1 pool).take 3)) :
    (shuffle2 (c :: (shuffle1 pool).take 3)).length = 4 ∧
    (shuffle2 (c :: (shuffle1 pool).take 3)).Nodup ∧
    c ∈ shuffle2 (c :: (shuffle1 pool).take 3) ∧
    (shuffle2 (c :: (shuffle1 pool).take 3)).count c = 1 := by
  have ht_len : ((shuffle1 pool).take 3).length = 3 := by
    rw [List.length_take, hs1.length_eq]
    omega
  have ht_nodup : ((shuffle1 pool).take 3).Nodup :=
    List.Nodup.sublist (List.take_sublist 3 _) (hs1.nodup_iff.mpr hpoolnodup)
  have hnotmem : c ∉ (shuffle1 pool).take 3 := by
    intro hmemt
    exact hcnot (hs1.mem_iff.mp ((List.take_sublist 3 _).subset hmemt))
  refine ⟨?_, ?_, ?_, ?_⟩
  · rw [hs2.length_eq]
    simp [ht_len]
  · exact hs2.nodup_iff.mpr (List.nodup_cons.mpr ⟨hnotmem, ht_nodup⟩)
  · exact hs2.mem_iff.mpr (List.mem_cons_self _ _)
  · rw [hs2.count_eq, List.count_cons_self, List.count_eq_zero.mpr hnotmem]

lemma generateQuestion_spec (data : List CountryCapital)
    (shuffle1 shuffle2 : List String → List String) (randomIndex : Nat)
    (d : Difficulty) (n : Nat)
    (hnodup : (data.map CountryCapital.capital).Nodup)
    (hlen : 4 ≤ data.length)
    (hs1 : ∀ l, (shuffle1 l).Perm l)
    (hs2 : ∀ l, (shuffle2 l).Perm l)
    (hidx : randomIndex < (eligibleCountries data d n).length) :
    ∃ q, generateQuestion data shuffle1 shuffle2 randomIndex d n = some q ∧
      q.options.length = 4 ∧ q.options.Nodup ∧ q.capital ∈ q.options ∧
      q.options.count q.capital = 1 := by
  have hget : (eligibleCountries data d n)[randomIndex]? =
      some (eligibleCountries data d n)[randomIndex] := List.getElem?_eq_getElem hidx
  have hmem : (eligibleCountries data d n)[randomIndex] ∈ data :=
    eligibleCountries_subset data d n (List.getElem_mem hidx)
  have hcapmem : (eligibleCountries data d n)[randomIndex].capital ∈
      data.map CountryCapital.capital := List.mem_map_of_mem _ hmem
  have hcomm : (data.filter
        (fun item => item.capital != (eligibleCountries data d n)[randomIndex].capital)).map
        (fun item => item.capital)
      = (data.map CountryCapital.capital).filter
        (fun x => x != (eligibleCountries data d n)[randomIndex].capital) :=
    (@List.filter_map CountryCapital String
      (fun x => x != (eligibleCountries data d n)[randomIndex].capital)
      (fun item => item.capital) data).symm
  have herase : (data.map CountryCapital.capital).filter
        (fun x => x != (eligibleCountries data d n)[randomIndex].capital)
      = (data.map CountryCapital.capital).erase
          (eligibleCountries data d n)[randomIndex].capital :=
    (hnodup.erase_eq_filter _).symm
  have hpoolnodup : ((data.filter
        (fun item => item.capital != (eligibleCountries data d n)[randomIndex].capital)).map
        (fun item => item.capital)).Nodup := by
    rw [hcomm]
    exact List.Nodup.sublist (List.filter_sublist _) hnodup
  have hpoollen : 3 ≤ ((data.filter
        (fun item => item.capital != (eligibleCountries data d n)[randomIndex].capital)).map
        (fun item => item.capital)).length := by
    rw [hcomm, herase, List.length_erase_of_mem hcapmem, List.length_map]
    omega
  have hcnot : (eligibleCountries data d n)[randomIndex].capital ∉
      (data.filter
        (fun item => item.capital != (eligibleCountries data d n)[randomIndex].capital)).map
        (fun item => item.capital) := by
    rw [hcomm]
    intro hmemf
    have h3 := (List.mem_filter.mp hmemf).2
    simp at h3
  obtain ⟨hlen4, hnd, hmemc, hcnt⟩ :=
    options_spec (eligibleCountries data d n)[randomIndex].capital
      ((data.filter
        (fun item => item.capital != (eligibleCountries data d n)[randomIndex].capital)).map
        (fun item => item.capital))
      shuffle1 shuffle2 hpoolnodup hpoollen hcnot (hs1 _) (hs2 _)
  refine ⟨{ country := (eligibleCountries data d n)[randomIndex].country
            capital := (eligibleCountries data d n)[randomIndex].capital
            options := shuffle2 ((eligibleCountries data d n)[randomIndex].capital ::
              ((shuffle1 ((data.filter (fun item =>
                item.capital != (eligibleCountries data d n)[randomIndex].capital)).map
                (fun item => item.capital))).take 3))
            difficulty := some ((eligibleCountries data d n)[randomIndex].difficulty.getD .easy) },
    ?_, hlen4, hnd, hmemc, hcnt⟩
  simp only [generateQuestion, hget]


lemma getComboMultiplier_le_succ (n : Nat) :
    getComboMultiplier n ≤ getComboMultiplier (n + 1) := by
  unfold getComboMultiplier
  split_ifs <;> first | omega | norm_num

lemma getComboMultiplier_mono : Monotone getComboMultiplier :=
  monotone_nat_of_le_succ getComboMultiplier_le_succ

lemma getComboMultiplier_lt3 (n : Nat) (h : n < 3) : getComboMultiplier n = 1.0 := by
  unfold getComboMultiplier
  split_ifs <;> first | rfl | omega

lemma getComboMultiplier_lt5 (n : Nat) (h1 : 3 ≤ n) (h2 : n < 5) :
    getComboMultiplier n = 1.2 := by
  unfold getComboMultiplier
  split_ifs <;> first | rfl | omega

lemma getComboMultiplier_lt10 (n : Nat) (h1 : 5 ≤ n) (h2 : n < 10) :
    getComboMultiplier n = 1.5 := by
  unfold getComboMultiplier
  split_ifs <;> first | rfl | omega

lemma getComboMultiplier_lt20 (n : Nat) (h1 : 10 ≤ n) (h2 : n < 20) :
    getComboMultiplier n = 2.0 := by
  unfold getComboMultiplier
  split_ifs <;> first | rfl | omega

lemma getComboMultiplier_ge20 (n : Nat) (h : 20 ≤ n) : getComboMultiplier n = 2.5 := by
  unfold getComboMultiplier
  split_ifs <;> first | rfl | omega

lemma getComboMultiplier_ne_succ_iff (n : Nat) :
    getComboMultiplier n ≠ getComboMultiplier (n + 1) ↔
      n + 1 = 3 ∨ n + 1 = 5 ∨ n + 1 = 10 ∨ n + 1 = 20 := by
  unfold getComboMultiplier
  split_ifs <;> constructor <;> intro h <;>
    first
      | omega
      | exact absurd rfl h
      | (rcases h with h | h | h | h <;> omega)
      | norm_num

lemma handleAnswer_correct (s : GameState) (q : Question) (a : String)
    (h1 : s.isAnswered = false) (h2 : s.currentQuestion = some q)
    (h3 : a = q.capital) :
    handleAnswer a s =
      { s with isAnswered := true
               selectedAnswer := some a
               combo := s.combo + 1
               score := s.score + ⌊getScoreByDifficulty q.difficulty *
                 getModeMultiplier s.currentDifficulty *
                 getComboMultiplier (s.combo + 1)⌋
               feedback := "정답입니다!" } := by
  subst h3
  simp [handleAnswer, h1, h2]

lemma handleAnswer_wrong (s : GameState) (q : Question) (a : String)
    (h1 : s.isAnswered = false) (h2 : s.currentQuestion = some q)
    (h3 : a ≠ q.capital) :
    handleAnswer a s =
      { s with isAnswered := true
               selectedAnswer := some a
               combo := 0
               feedback := "틀렸습니다!"
               correctAnswer := jsOrNull q.capital
               hearts := s.hearts - 1 } := by
  simp [handleAnswer, h1, h2, h3]

lemma handleAnswer_already (s : GameState) (a : String) (h : s.isAnswered = true) :
    handleAnswer a s = s := by
  simp [handleAnswer, h]

lemma handleAnswer_isAnswered (a : String) (s : GameState) :
    (handleAnswer a s).isAnswered = true := by
  by_cases h : s.isAnswered
  · rw [handleAnswer_already s a h]
    exact h
  · unfold handleAnswer
    simp only [eq_false_of_ne_true h, if_false, Bool.false_eq_true]
    cases s.currentQuestion <;> simp <;> split_ifs <;> rfl

lemma tick_resolved (s : GameState) (h : s.isAnswered = true ∨ s.timeoutHandled = true) :
    tick s = s := by
  unfold tick
  rcases h with h | h <;> simp [h]

lemma tick_fire (s : GameState) (q : Question)
    (h1 : s.isAnswered = false) (h2 : s.timeoutHandled = false)
    (h3 : s.currentQuestion = some q) (h4 : 0 < s.timeLeft) (h5 : s.timeLeft ≤ 1) :
    tick s =
      { s with timeoutHandled := true
               isAnswered := true
               feedback := "시간 초과입니다!"
               combo := 0
               correctAnswer := some q.capital
               hearts := s.hearts - 1
               timeLeft := 0 } := by
  unfold tick
  rw [h1, h2]
  simp only [Bool.or_self, Bool.false_eq_true, if_false]
  rw [if_neg (by omega)]
  rw [if_pos ⟨by omega, trivial⟩]
  rw [h3]

lemma tick_count (s : GameState)
    (h1 : s.isAnswered = false) (h2 : s.timeoutHandled = false)
    (h4 : 0 < s.timeLeft) (h5 : 1 < s.timeLeft) :
    tick s = { s with timeLeft := s.timeLeft - 1 } := by
  unfold tick
  rw [h1, h2]
  simp only [Bool.or_self, Bool.false_eq_true, if_false]
  rw [if_neg (by omega)]
  rw [if_neg (by omega)]


/-! ## Claim theorems and witnesses -/

/-! ## Concrete instances used by the witnesses -/

/-- A small concrete question bank with pairwise-distinct capitals. -/
def data4 : List CountryCapital :=
  [{ country := "France", capital := "Paris", difficulty := some .easy },
   { country := "Japan", capital := "Tokyo", difficulty := some .medium },
   { country := "Kenya", capital := "Nairobi", difficulty := some .hard },
   { country := "Peru", capital := "Lima", difficulty := some .easy }]

/-- A concrete question over `data4`. -/
def q0 : Question :=
  { country := "France", capital := "Paris",
    options := ["Paris", "Tokyo", "Nairobi", "Lima"], difficulty := some .easy }

/-- A concrete armed round in easy mode with one second left on the clock. -/
def s1 : GameState :=
  { screen := .game, speedMode := false, score := 0, hearts := 3,
    questionNumber := 1, combo := 0, timeLeft := 1, currentDifficulty := .easy,
    currentQuestion := some q0, selectedAnswer := none, isAnswered := false,
    feedback := "", correctAnswer := none, timeoutHandled := false }

/-- Claim C1: once a round is resolved, the second resolution trigger is a
no-op in either order — an answer after an answer, a tick after an answer, a
resolution trigger on an already-resolved state, and an answer or tick after a
fired timeout all leave the state unchanged, so lives are never decremented
twice and points are never awarded twice for one round. -/
theorem claim_C1_single_resolution (s : GameState) (q : Question) (a b : String) :
    (handleAnswer b (handleAnswer a s) = handleAnswer a s)
    ∧ (tick (handleAnswer a s) = handleAnswer a s)
    ∧ (s.isAnswered = true → handleAnswer a s = s ∧ tick s = s)
    ∧ (s.timeoutHandled = true → tick s = s)
    ∧ (s.isAnswered = false → s.timeoutHandled = false →
        s.currentQuestion = some q → 0 < s.timeLeft → s.timeLeft ≤ 1 →
        handleAnswer b (tick s) = tick s ∧ tick (tick s) = tick s) := by
  refine ⟨?_, ?_, ?_, ?_, ?_⟩
  · exact handleAnswer_already _ b (handleAnswer_isAnswered a s)
  · exact tick_resolved _ (Or.inl (handleAnswer_isAnswered a s))
  · intro h
    exact ⟨handleAnswer_already s a h, tick_resolved s (Or.inl h)⟩
  · intro h
    exact tick_resolved s (Or.inr h)
  · intro h1 h2 h3 h4 h5
    have hfire := tick_fire s q h1 h2 h3 h4 h5
    have hans : (tick s).isAnswered = true := by rw [hfire]
    exact ⟨handleAnswer_already _ b hans, tick_resolved _ (Or.inl hans)⟩

/-- Witness for C1 at a concrete armed state with one second left. -/
theorem claim_C1_witness :
    s1.isAnswered = false ∧
    (handleAnswer "Lima" (tick s1) = tick s1 ∧ tick (tick s1) = tick s1) :=
  ⟨rfl, (claim_C1_single_resolution s1 q0 "Tokyo" "Lima").2.2.2.2 rfl rfl rfl
    (by norm_num [s1]) (by norm_num [s1])⟩

/-- Claim C4: the combo multiplier is monotonically non-decreasing with the
exact step values 1.0 / 1.2 / 1.5 / 2.0 / 2.5, its value changes exactly at
combo lengths 3, 5, 10, 20, and a correct answer evaluates it at the combo
length after the increment for that answer. -/
theorem claim_C4_combo_multiplier :
    (∀ a b : Nat, a ≤ b → getComboMultiplier a ≤ getComboMultiplier b)
    ∧ (∀ n, n < 3 → getComboMultiplier n = 1.0)
    ∧ (∀ n, 3 ≤ n → n < 5 → getComboMultiplier n = 1.2)
    ∧ (∀ n, 5 ≤ n → n < 10 → getComboMultiplier n = 1.5)
    ∧ (∀ n, 10 ≤ n → n < 20 → getComboMultiplier n = 2.0)
    ∧ (∀ n, 20 ≤ n → getComboMultiplier n = 2.5)
    ∧ (∀ n, getComboMultiplier n ≠ getComboMultiplier (n + 1) ↔
        n + 1 = 3 ∨ n + 1 = 5 ∨ n + 1 = 10 ∨ n + 1 = 20)
    ∧ (∀ (s : GameState) (q : Question) (a : String),
        s.isAnswered = false → s.currentQuestion = some q → a = q.capital →
        (handleAnswer a s).combo = s.combo + 1 ∧
        (handleAnswer a s).score = s.score + ⌊getScoreByDifficulty q.difficulty *
          getModeMultiplier s.currentDifficulty *
          getComboMultiplier (s.combo + 1)⌋) := by
  refine ⟨fun a b h => getComboMultiplier_mono h, getComboMultiplier_lt3,
    getComboMultiplier_lt5, getComboMultiplier_lt10, getComboMultiplier_lt20,
    getComboMultiplier_ge20, getComboMultiplier_ne_succ_iff, ?_⟩
  intro s q a h1 h2 h3
  rw [handleAnswer_correct s q a h1 h2 h3]
  exact ⟨rfl, rfl⟩

/-- Witness for C4 at concrete combo lengths and a concrete correct answer. -/
theorem claim_C4_witness :
    getComboMultiplier 2 ≤ getComboMultiplier 7
    ∧ getComboMultiplier 7 = 1.5
    ∧ (getComboMultiplier 4 ≠ getComboMultiplier 5 ↔
        (5 : Nat) = 3 ∨ (5 : Nat) = 5 ∨ (5 : Nat) = 10 ∨ (5 : Nat) = 20)
    ∧ (handleAnswer "Paris" s1).combo = s1.combo + 1 :=
  ⟨claim_C4_combo_multiplier.1 2 7 (by norm_num),
   claim_C4_combo_multiplier.2.2.2.1 7 (by norm_num) (by norm_num),
   claim_C4_combo_multiplier.2.2.2.2.2.2.1 4,
   (claim_C4_combo_multiplier.2.2.2.2.2.2.2 s1 q0 "Paris" rfl rfl rfl).1⟩

/-- Claim C5: on an armed round, a wrong answer — and likewise a firing
timeout tick — sets the combo to exactly 0 and decreases lives by exactly 1,
whatever the prior combo length. -/
theorem claim_C5_wrong_resets (s : GameState) (q : Question) (a : String)
    (h1 : s.isAnswered = false) (h2 : s.timeoutHandled = false)
    (h3 : s.currentQuestion = some q) :
    (a ≠ q.capital →
      (handleAnswer a s).combo = 0 ∧ (handleAnswer a s).hearts = s.hearts - 1)
    ∧ (0 < s.timeLeft → s.timeLeft ≤ 1 →
      (tick s).combo = 0 ∧ (tick s).hearts = s.hearts - 1) := by
  constructor
  · intro ha
    rw [handleAnswer_wrong s q a h1 h3 ha]
    exact ⟨rfl, rfl⟩
  · intro h4 h5
    rw [tick_fire s q h1 h2 h3 h4 h5]
    exact ⟨rfl, rfl⟩

/-- Witness for C5: a wrong click and a timeout on the concrete armed state. -/
theorem claim_C5_witness :
    ((handleAnswer "Tokyo" s1).combo = 0 ∧ (handleAnswer "Tokyo" s1).hearts = s1.hearts - 1)
    ∧ ((tick s1).combo = 0 ∧ (tick s1).hearts = s1.hearts - 1) :=
  ⟨(claim_C5_wrong_resets s1 q0 "Tokyo" rfl rfl rfl).1 (by decide),
   (claim_C5_wrong_resets s1 q0 "Tokyo" rfl rfl rfl).2 (by norm_num [s1]) (by norm_num [s1])⟩


lemma floor_30_15_15 : ⌊(30 : ℚ) * 1.5 * 1.5⌋ = 67 := by
  rw [Int.floor_eq_iff] <;> norm_num

lemma floor_10_10_10 : ⌊(10 : ℚ) * 1.0 * 1.0⌋ = 10 := by
  rw [Int.floor_eq_iff] <;> norm_num

/-- Claim C3: a correct answer adds exactly
`floor(basePoints(question tier) * modeMultiplier(selected mode) *
comboMultiplier(combo after increment))` to the score; a hard question in hard
mode at new combo length 5 awards exactly 67 and an easy question in easy mode
on a first correct answer awards exactly 10. -/
theorem claim_C3_awarded_points (s : GameState) (q : Question) (a : String)
    (h1 : s.isAnswered = false) (h2 : s.currentQuestion = some q)
    (h3 : a = q.capital) :
    ((handleAnswer a s).score = s.score + ⌊getScoreByDifficulty q.difficulty *
      getModeMultiplier s.currentDifficulty * getComboMultiplier (s.combo + 1)⌋)
    ∧ (q.difficulty = some .hard → s.currentDifficulty = .hard → s.combo = 4 →
        (handleAnswer a s).score = s.score + 67)
    ∧ (q.difficulty = some .easy → s.currentDifficulty = .easy → s.combo = 0 →
        (handleAnswer a s).score = s.score + 10) := by
  have h := handleAnswer_correct s q a h1 h2 h3
  refine ⟨by rw [h], ?_, ?_⟩
  · intro hq hd hc
    rw [h]
    show s.score + _ = s.score + 67
    rw [hq, hd, hc]
    show s.score + ⌊getScoreByDifficulty (some .hard) * getModeMultiplier .hard *
      getComboMultiplier 5⌋ = s.score + 67
    rw [show getScoreByDifficulty (some .hard) = 30 from rfl,
      show getModeMultiplier .hard = 1.5 from rfl,
      getComboMultiplier_lt10 5 (by norm_num) (by norm_num), floor_30_15_15]
  · intro hq hd hc
    rw [h]
    show s.score + _ = s.score + 10
    rw [hq, hd, hc]
    show s.score + ⌊getScoreByDifficulty (some .easy) * getModeMultiplier .easy *
      getComboMultiplier 1⌋ = s.score + 10
    rw [show getScoreByDifficulty (some .easy) = 10 from rfl,
      show getModeMultiplier .easy = 1.0 from rfl,
      getComboMultiplier_lt3 1 (by norm_num), floor_10_10_10]

/-- Witness for C3: the first correct answer on the concrete easy-mode round
awards exactly 10 points. -/
theorem claim_C3_witness : (handleAnswer "Paris" s1).score = s1.score + 10 :=
  (claim_C3_awarded_points s1 q0 "Paris" rfl rfl rfl).2.2 rfl rfl rfl

/-- Claim C2: for every mode, question index, question bank with at least four
facts and pairwise-distinct capitals, random pick inside the eligible subset
and arbitrary shuffles, the generator returns a question with exactly 4
pairwise-distinct options containing the correct capital exactly once. -/
theorem claim_C2_options_valid (data : List CountryCapital)
    (shuffle1 shuffle2 : List String → List String) (randomIndex : Nat)
    (d : Difficulty) (n : Nat)
    (hnodup : (data.map CountryCapital.capital).Nodup)
    (hlen : 4 ≤ data.length)
    (hs1 : ∀ l, (shuffle1 l).Perm l)
    (hs2 : ∀ l, (shuffle2 l).Perm l)
    (hidx : randomIndex < (eligibleCountries data d n).length) :
    ∃ q, generateQuestion data shuffle1 shuffle2 randomIndex d n = some q ∧
      q.options.length = 4 ∧ q.options.Nodup ∧ q.capital ∈ q.options ∧
      q.options.count q.capital = 1 :=
  generateQuestion_spec data shuffle1 shuffle2 randomIndex d n hnodup hlen hs1 hs2 hidx

/-- Witness for C2 on the concrete four-entry bank in hard mode. -/
theorem claim_C2_witness :
    ∃ q, generateQuestion data4 id id 0 .hard 1 = some q ∧
      q.options.length = 4 ∧ q.options.Nodup ∧ q.capital ∈ q.options ∧
      q.options.count q.capital = 1 :=
  claim_C2_options_valid data4 id id 0 .hard 1 (by decide) (by decide)
    (fun l => List.Perm.refl l) (fun l => List.Perm.refl l) (by decide)


/-- The spec's difficulty-ramp table (spec section 4.1), transcribed for
comparison with the source's `eligibleCountries` filter: the set of fact tiers
eligible for the correct answer, by player-selected mode and question index. -/
def specRampTiers (mode : Difficulty) (questionIndex : Nat) : List Difficulty :=
  match mode with
  | .easy =>
    if questionIndex ≤ 20 then [.easy]
    else if questionIndex ≤ 40 then [.easy, .medium]
    else [.easy, .medium, .hard]
  | .medium =>
    if questionIndex ≤ 30 then [.easy, .medium]
    else [.easy, .medium, .hard]
  | .hard => [.easy, .medium, .hard]

/-- Claim C6: on a question bank whose facts all carry a difficulty tag (the
spec's data model), the source's eligible subset equals the bank filtered by
membership of the fact's tier in the spec's ramp table, for every mode and
question index. -/
theorem claim_C6_ramp_table (data : List CountryCapital) (mode : Difficulty)
    (n : Nat) (htag : ∀ c ∈ data, c.difficulty.isSome) :
    eligibleCountries data mode n =
      data.filter (fun c => (specRampTiers mode n).any (fun t => c.difficulty == some t)) := by
  have hfull : data.filter
      (fun c => ([Difficulty.easy, .medium, .hard]).any (fun t => c.difficulty == some t)) =
      data := by
    rw [List.filter_eq_self]
    intro c hc
    obtain ⟨t, ht⟩ := Option.isSome_iff_exists.mp (htag c hc)
    cases t <;> simp [ht]
  cases mode with
  | easy =>
    simp only [eligibleCountries, specRampTiers]
    split_ifs
    · refine List.filter_congr ?_
      intro c hc
      simp
    · refine List.filter_congr ?_
      intro c hc
      simp
    · exact hfull.symm
  | medium =>
    simp only [eligibleCountries, specRampTiers]
    split_ifs
    · refine List.filter_congr ?_
      intro c hc
      simp
    · exact hfull.symm
  | hard =>
    simp only [eligibleCountries, specRampTiers]
    exact hfull.symm

/-- Witness for C6: the concrete bank, easy mode, question 21 (the
easy-plus-medium band). -/
theorem claim_C6_witness :
    eligibleCountries data4 .easy 21 =
      data4.filter (fun c => (specRampTiers .easy 21).any (fun t => c.difficulty == some t)) :=
  claim_C6_ramp_table data4 .easy 21 (by decide)

/-- Claim C8: restarting with a tier, from any prior state, resets score to 0,
lives to 3, combo to 0 and questionIndex to 1, re-arms the round, sets the
timer to the selected mode's duration (easy 7, medium 4, hard 2 seconds), and
produces a freshly generated valid question for index 1. -/
theorem claim_C8_restart (data : List CountryCapital)
    (shuffle1 shuffle2 : List String → List String) (randomIndex : Nat)
    (d : Difficulty) (s : GameState)
    (hnodup : (data.map CountryCapital.capital).Nodup)
    (hlen : 4 ≤ data.length)
    (hs1 : ∀ l, (shuffle1 l).Perm l)
    (hs2 : ∀ l, (shuffle2 l).Perm l)
    (hidx : randomIndex < (eligibleCountries data d 1).length) :
    (startGame data shuffle1 shuffle2 randomIndex d s).score = 0
    ∧ (startGame data shuffle1 shuffle2 randomIndex d s).hearts = 3
    ∧ (startGame data shuffle1 shuffle2 randomIndex d s).combo = 0
    ∧ (startGame data shuffle1 shuffle2 randomIndex d s).questionNumber = 1
    ∧ (startGame data shuffle1 shuffle2 randomIndex d s).isAnswered = false
    ∧ (startGame data shuffle1 shuffle2 randomIndex d s).screen = .game
    ∧ (startGame data shuffle1 shuffle2 randomIndex d s).timeLeft = getTimeByDifficulty d
    ∧ getTimeByDifficulty .easy = 7 ∧ getTimeByDifficulty .medium = 4
    ∧ getTimeByDifficulty .hard = 2
    ∧ ∃ q, (startGame data shuffle1 shuffle2 randomIndex d s).currentQuestion = some q
        ∧ q.options.length = 4 ∧ q.options.Nodup ∧ q.capital ∈ q.options
        ∧ q.options.count q.capital = 1 := by
  obtain ⟨q, hq, hrest⟩ :=
    generateQuestion_spec data shuffle1 shuffle2 randomIndex d 1 hnodup hlen hs1 hs2 hidx
  exact ⟨rfl, rfl, rfl, rfl, rfl, rfl, rfl, rfl, rfl, rfl, q, hq, hrest⟩

/-- Witness for C8: restart the concrete mid-game state in hard mode over the
concrete bank. -/
theorem claim_C8_witness :
    (startGame data4 id id 0 .hard s1).score = 0
    ∧ (startGame data4 id id 0 .hard s1).hearts = 3
    ∧ (startGame data4 id id 0 .hard s1).combo = 0
    ∧ (startGame data4 id id 0 .hard s1).questionNumber = 1
    ∧ (startGame data4 id id 0 .hard s1).isAnswered = false
    ∧ (startGame data4 id id 0 .hard s1).screen = .game
    ∧ (startGame data4 id id 0 .hard s1).timeLeft = getTimeByDifficulty .hard
    ∧ getTimeByDifficulty .easy = 7 ∧ getTimeByDifficulty .medium = 4
    ∧ getTimeByDifficulty .hard = 2
    ∧ ∃ q, (startGame data4 id id 0 .hard s1).currentQuestion = some q
        ∧ q.options.length = 4 ∧ q.options.Nodup ∧ q.capital ∈ q.options
        ∧ q.options.count q.capital = 1 :=
  claim_C8_restart data4 id id 0 .hard s1 (by decide) (by decide)
    (fun l => List.Perm.refl l) (fun l => List.Perm.refl l) (by decide)

/-- Claim C10: resolving a round changes only the fields its outcome concerns.
A correct answer leaves lives, questionIndex, the recorded correct answer, the
question, the screen, the clock and the mode unchanged; a wrong answer or a
timeout leaves score, questionIndex, the question, the screen and the mode
unchanged; and questionIndex is changed by no resolution step at all, only by
the advance step, which increments it by exactly one while lives remain. -/
theorem claim_C10_frame (s : GameState) (q : Question) (a : String)
    (h1 : s.isAnswered = false) (h2 : s.currentQuestion = some q) :
    (a = q.capital →
      (handleAnswer a s).hearts = s.hearts
      ∧ (handleAnswer a s).questionNumber = s.questionNumber
      ∧ (handleAnswer a s).correctAnswer = s.correctAnswer
      ∧ (handleAnswer a s).currentQuestion = s.currentQuestion
      ∧ (handleAnswer a s).screen = s.screen
      ∧ (handleAnswer a s).timeLeft = s.timeLeft
      ∧ (handleAnswer a s).currentDifficulty = s.currentDifficulty
      ∧ (handleAnswer a s).speedMode = s.speedMode)
    ∧ (a ≠ q.capital →
      (handleAnswer a s).score = s.score
      ∧ (handleAnswer a s).questionNumber = s.questionNumber
      ∧ (handleAnswer a s).currentQuestion = s.currentQuestion
      ∧ (handleAnswer a s).screen = s.screen
      ∧ (handleAnswer a s).timeLeft = s.timeLeft
      ∧ (handleAnswer a s).currentDifficulty = s.currentDifficulty
      ∧ (handleAnswer a s).speedMode = s.speedMode)
    ∧ (s.timeoutHandled = false → 0 < s.timeLeft → s.timeLeft ≤ 1 →
      (tick s).score = s.score
      ∧ (tick s).questionNumber = s.questionNumber
      ∧ (tick s).selectedAnswer = s.selectedAnswer
      ∧ (tick s).currentQuestion = s.currentQuestion
      ∧ (tick s).screen = s.screen
      ∧ (tick s).currentDifficulty = s.currentDifficulty
      ∧ (tick s).speedMode = s.speedMode)
    ∧ (∀ (b : String) (s' : GameState), (handleAnswer b s').questionNumber = s'.questionNumber)
    ∧ (∀ s' : GameState, (tick s').questionNumber = s'.questionNumber)
    ∧ (∀ (data : List CountryCapital) (sh1 sh2 : List String → List String)
        (i : Nat) (s' : GameState), 0 < s'.hearts →
        (nextQuestion data sh1 sh2 i s').questionNumber = s'.questionNumber + 1) := by
  refine ⟨?_, ?_, ?_, ?_, ?_, ?_⟩
  · intro h3
    rw [handleAnswer_correct s q a h1 h2 h3]
    exact ⟨rfl, rfl, rfl, rfl, rfl, rfl, rfl, rfl⟩
  · intro h3
    rw [handleAnswer_wrong s q a h1 h2 h3]
    exact ⟨rfl, rfl, rfl, rfl, rfl, rfl, rfl⟩
  · intro h3 h4 h5
    rw [tick_fire s q h1 h3 h2 h4 h5]
    exact ⟨rfl, rfl, rfl, rfl, rfl, rfl, rfl⟩
  · intro b s'
    unfold handleAnswer
    split
    · rfl
    · split
      · split <;> rfl
      · rfl
  · intro s'
    unfold tick
    dsimp only
    split
    · rfl
    · split
      · rfl
      · split
        · split <;> rfl
        · rfl
  · intro data sh1 sh2 i s' h
    unfold nextQuestion
    rw [if_neg (by omega)]

/-- Witness for C10: the concrete armed round, answered correctly. -/
theorem claim_C10_witness :
    (handleAnswer "Paris" s1).hearts = s1.hearts
    ∧ (handleAnswer "Paris" s1).questionNumber = s1.questionNumber :=
  ⟨((claim_C10_frame s1 q0 "Paris" rfl rfl).1 rfl).1,
   ((claim_C10_frame s1 q0 "Paris" rfl rfl).1 rfl).2.1⟩


/-- Claim C7: on the transition into the game-over screen, the stored high
score is overwritten exactly when the run's final score strictly exceeds the
previously stored high score; an equal final score leaves the stored value
unchanged. -/
theorem claim_C7_highscore_persist (stored : Option String) (score h : Int)
    (hget : getHighScore true stored = some h) (hnn : 0 ≤ h) :
    (h < score →
      gameOverSaveEffect .gameOver true score stored = some (toString score))
    ∧ (score ≤ h → gameOverSaveEffect .gameOver true score stored = stored) := by
  constructor
  · intro hlt
    unfold gameOverSaveEffect saveHighScore
    rw [if_pos ⟨rfl, by omega⟩]
    simp [hget, jsGt, hlt]
  · intro hle
    unfold gameOverSaveEffect saveHighScore
    by_cases hpos : 0 < score
    · rw [if_pos ⟨rfl, hpos⟩]
      simp [hget, jsGt, not_lt.mpr hle]
    · rw [if_neg (by simp [hpos])]

/-- Witness for C7: stored high score 50, final score 60 overwrites; final
score 50 does not. -/
theorem claim_C7_witness :
    gameOverSaveEffect .gameOver true 60 (some "50") = some (toString (60 : Int))
    ∧ gameOverSaveEffect .gameOver true 50 (some "50") = some "50" :=
  ⟨(claim_C7_highscore_persist (some "50") 60 50 (by decide) (by decide)).1 (by decide),
   (claim_C7_highscore_persist (some "50") 50 50 (by decide) (by decide)).2 (by decide)⟩

/-- Counterexample for claim C9: the high-score load does not return 0 — nor
any integer — for the corrupted stored value `"abc"` (JavaScript `parseInt`
yields `NaN`, modelled `none`), and it returns a negative integer for the
stored value `"-5"`. -/
theorem claim_C9_counterexample :
    getHighScore true (some "abc") = none
    ∧ getHighScore true (some "abc") ≠ some 0
    ∧ getHighScore true (some "-5") = some (-5) := by
  refine ⟨by decide, by decide, by decide⟩

/-- Claim C9 as amended: the load returns 0 when storage access throws, when
the stored value is absent, and when it is the (falsy) empty string; for any
other stored string it returns JavaScript `parseInt(s, 10)`, which is `NaN`
(no integer, modelled `none`) when the string has no leading integer and may
be negative. -/
theorem claim_C9_amended (stored : Option String) (s : String) :
    getHighScore false stored = some 0
    ∧ getHighScore true none = some 0
    ∧ getHighScore true (some "") = some 0
    ∧ (s ≠ "" → getHighScore true (some s) = parseIntJS s) := by
  refine ⟨rfl, rfl, rfl, ?_⟩
  intro hs
  simp [getHighScore, hs]

/-- Witness for the amended C9 at concrete stored values. -/
theorem claim_C9_amended_witness :
    getHighScore false (some "99") = some 0
    ∧ getHighScore true (some "7") = parseIntJS "7" :=
  ⟨(claim_C9_amended (some "99") "7").1,
   (claim_C9_amended (some "99") "7").2.2.2 (by decide)⟩


end WCQ
